import Mathlib

/-
Verification of the serialconsole TUI monitor core (src/index.js).

The JavaScript closures of `tuiMonitor` are embedded shallowly: the mutable
closure variables become fields of explicit state structures, each event
handler becomes a pure state-transition function, and sink output (the
blessed log widgets) becomes an explicit list of emitted events.  Strings
and byte buffers are modelled as `List Char`; `Buffer.from(str).length`
is modelled by the UTF-8 byte length `utf8Len`.
-/

/-- UTF-8 byte length of one character, as Buffer.from counts it. -/
def utf8CharLen (c : Char) : Nat :=
  if c.toNat < 0x80 then 1
  else if c.toNat < 0x800 then 2
  else if c.toNat < 0x10000 then 3
  else 4

/-- UTF-8 byte length of a string modelled as a character list. -/
def utf8Len (l : List Char) : Nat :=
  (l.map utf8CharLen).sum

/-- Number of newline characters in a list. -/
def nlCount : List Char → Nat
  | [] => 0
  | c :: l => (if c = '\n' then 1 else 0) + nlCount l

/-- Whitespace predicate used by JavaScript String.prototype.trim
(restricted to the ASCII whitespace characters that occur in serial data). -/
def isJsSpace (c : Char) : Bool :=
  c = ' ' || c = '\t' || c = '\n' || c = '\r' || c = '\x0b' || c = '\x0c'

/-- Model of JavaScript String.prototype.trim. -/
def jsTrim (l : List Char) : List Char :=
  ((l.dropWhile isJsSpace).reverse.dropWhile isJsSpace).reverse

/-- Model of JavaScript String.prototype.toLowerCase (ASCII range). -/
def jsToLower (l : List Char) : List Char :=
  l.map Char.toLower

/-- Boolean list-prefix test on characters. -/
def isPrefixList : List Char → List Char → Bool
  | [], _ => true
  | _ :: _, [] => false
  | a :: as, b :: bs => a = b && isPrefixList as bs

/-- Model of JavaScript String.prototype.includes: does `hay` contain
`needle` as a contiguous substring. -/
def containsSub (hay needle : List Char) : Bool :=
  match hay with
  | [] => isPrefixList needle []
  | c :: t => isPrefixList needle (c :: t) || containsSub t needle

/-! ## Backoff policy (src/index.js line 33 and line 540) -/

/-- Closure variable `maxReconnectDelay` (src/index.js line 33). -/
def maxReconnectDelay : Nat := 30000

/-- The delay computed at src/index.js line 540 for the attempt whose
ordinal is `attempts` (the value of `reconnectAttempts` after the
increment): `Math.min(1000 * Math.pow(2, Math.min(reconnectAttempts - 1, 5)),
maxReconnectDelay)`. -/
def reconnectDelay (attempts : Nat) : Nat :=
  min (1000 * 2 ^ (min (attempts - 1) 5)) maxReconnectDelay

/-! ## Reconnect state machine (src/index.js lines 534-633, 826-847)

The reconnection closure variables (`autoReconnect`, `isReconnecting`,
`reconnectAttempts`, `reconnectTimer`, `reconnectStartTime`,
`currentReconnectDelay`) together with the port-open flag and the
shutdown flag become one structure.  `attemptReconnect` is split into
its synchronous entry (lines 536-543, which schedules the timer) and
the timer callback with the outcome of the port-open attempt
(lines 545-621). -/

structure RecState where
  autoReconnect : Bool
  isReconnecting : Bool
  reconnectAttempts : Nat
  timerPending : Bool
  reconnectStartTime : Option Nat
  currentReconnectDelay : Nat
  portOpen : Bool
  isShuttingDown : Bool
deriving DecidableEq

/-- Entry of `attemptReconnect` (src/index.js lines 535-543): guard, then
increment the attempt ordinal, compute the backoff delay, record the start
time and schedule the timer. -/
def attemptReconnect (s : RecState) (now : Nat) : RecState :=
  if !s.autoReconnect || s.isReconnecting || s.isShuttingDown then s
  else
    { s with
      isReconnecting := true
      reconnectAttempts := s.reconnectAttempts + 1
      currentReconnectDelay := reconnectDelay (s.reconnectAttempts + 1)
      reconnectStartTime := some now
      timerPending := true }

/-- Outcome of the port-open attempt inside the reconnect timer callback. -/
inductive OpenResult where
  | ok : OpenResult
  | err : List Char → OpenResult
deriving DecidableEq

/-- The fixed permanent-failure markers (src/index.js line 603). -/
def permanentErrors : List (List Char) :=
  ["Access denied", "Permission denied", "EACCES", "EPERM",
   "Resource busy", "EBUSY"].map String.toList

/-- Classification at src/index.js line 604: the error message is permanent
iff it contains one of the fixed markers. -/
def isPermanentError (msg : List Char) : Bool :=
  permanentErrors.any (fun marker => containsSub msg marker)

/-- Result of the reconnect timer callback: the new state plus whether a
follow-up `attemptReconnect` call was scheduled (the 1s setTimeout at
src/index.js lines 614-618). -/
structure RecOutcome where
  state : RecState
  retryScheduled : Bool
deriving DecidableEq

/-- Body of the reconnect timer callback (src/index.js lines 545-621),
parameterised by the outcome of the `port.open` call: the early bail-out
when shutting down or auto-reconnect was disabled, the success path that
clears all bookkeeping (lines 590-594), the permanent-failure path that
force-disables auto-reconnect and resets the counter (lines 606-610), and
the transient path that schedules a retry (lines 611-619). -/
def reconnectTimerFire (s0 : RecState) (r : OpenResult) : RecOutcome :=
  let s := { s0 with timerPending := false }
  if s.isShuttingDown || !s.autoReconnect then
    ⟨{ s with isReconnecting := false }, false⟩
  else
    match r with
    | .ok =>
      ⟨{ s with
           isReconnecting := false
           reconnectAttempts := 0
           reconnectStartTime := none
           currentReconnectDelay := 0
           portOpen := true }, false⟩
    | .err msg =>
      if isPermanentError msg then
        ⟨{ s with
             autoReconnect := false
             isReconnecting := false
             reconnectAttempts := 0 }, false⟩
      else
        ⟨{ s with isReconnecting := false }, true⟩

/-- The `cancelReconnect` function (src/index.js lines 624-633). -/
def cancelReconnect (s : RecState) : RecState :=
  { s with
    timerPending := false
    isReconnecting := false
    reconnectAttempts := 0
    reconnectStartTime := none
    currentReconnectDelay := 0 }

/-- Result of the R-key handler: the new state plus whether a 500ms
setTimeout chaining to `attemptReconnect` was installed. -/
structure KeyROutcome where
  state : RecState
  attemptScheduled : Bool
deriving DecidableEq

/-- The auto-reconnect toggle handler bound to the R key
(src/index.js lines 827-847), with its four branches in source order. -/
def keyRToggle (s : RecState) : KeyROutcome :=
  if !s.autoReconnect then
    let s1 := cancelReconnect { s with autoReconnect := true }
    ⟨s1, !s1.portOpen⟩
  else if s.isReconnecting then
    ⟨cancelReconnect s, true⟩
  else if !s.portOpen then
    ⟨s, true⟩
  else
    ⟨cancelReconnect { s with autoReconnect := false }, false⟩

/-! ## Monitor data pipeline (src/index.js lines 268-342, 434-470, 636-681)

The display/statistics closure variables of `tuiMonitor` become one
structure; `addMessage`, `addHexData`, the ReadlineParser data handler,
the raw-data (hex) handler and the send-dialog submit handler become
pure functions returning the new state and the sink events emitted. -/

/-- Line-ending modes cycled by the L key (src/index.js line 820). -/
inductive LineEnding where
  | LF : LineEnding
  | CR : LineEnding
  | CRLF : LineEnding
deriving DecidableEq

/-- The `endings` table of the send dialog (src/index.js line 436). -/
def endingChars : LineEnding → List Char
  | .LF => ['\n']
  | .CR => ['\r']
  | .CRLF => ['\r', '\n']

/-- Colors passed to `addMessage` in the source. -/
inductive Color where
  | white : Color
  | green : Color
  | blue : Color
  | red : Color
  | yellow : Color
  | cyan : Color
deriving DecidableEq

/-- The `isSystemMessage` test of `addMessage` (src/index.js line 273):
yellow, cyan and red messages are system messages. -/
def isSystemColor : Color → Bool
  | .yellow => true
  | .cyan => true
  | .red => true
  | _ => false

/-- Events delivered to the sink (the data and hex log widgets). -/
inductive SinkEvent where
  | message : List Char → Color → SinkEvent
  | hex : List Char → SinkEvent
deriving DecidableEq

/-- The monitor closure variables relevant to the data pipeline
(src/index.js lines 14-27, 41), plus the ReadlineParser internal buffer
of not-yet-terminated characters. -/
structure MonState where
  pauseLogging : Bool
  filterText : List Char
  filterEnabled : Bool
  showHex : Bool
  echoMode : Bool
  lineEnding : LineEnding
  portOpen : Bool
  isShuttingDown : Bool
  bytesReceived : Nat
  bytesSent : Nat
  messagesReceived : Nat
  parserBuf : List Char
deriving DecidableEq

/-- The display prefix prepended to inbound lines (src/index.js line 649). -/
def arrowMark : List Char := ['←', ' ']

/-- The display prefix prepended to echoed sends (src/index.js line 442). -/
def echoMark : List Char := ['→', ' ']

/-- The `addMessage` function (src/index.js lines 268-311) restricted to
its sink-visible effect: it returns the message event, or none when the
message is dropped by the shutdown guard, the pause check or the filter
check.  The display-only timestamp and truncation are omitted. -/
def addMessage (s : MonState) (msg : List Char) (color : Color) : Option SinkEvent :=
  if s.isShuttingDown then none
  else
    let isSys := isSystemColor color
    if s.pauseLogging && !isSys then none
    else if !isSys && s.filterEnabled && !s.filterText.isEmpty
            && !(containsSub (jsToLower msg) (jsToLower s.filterText)) then none
    else some (.message msg color)

/-- The `addHexData` function (src/index.js lines 314-342) restricted to
its sink-visible effect: the raw chunk reaches the hex widget unless
shutting down, the hex view is off, or logging is paused. -/
def addHexData (s : MonState) (data : List Char) : Option SinkEvent :=
  if s.isShuttingDown || !s.showHex || s.pauseLogging then none
  else some (.hex data)

/-! ### ReadlineParser model

`port.pipe(new ReadlineParser({ delimiter: '\n' }))` buffers incoming
bytes and emits one event per complete line, delimiter stripped; the
characters after the last delimiter stay buffered. -/

/-- One character step of the line splitter: a newline closes the current
line, any other character extends it. -/
def splitStep (acc : List (List Char) × List Char) (c : Char) :
    List (List Char) × List Char :=
  if c = '\n' then (acc.1 ++ [acc.2], [])
  else (acc.1, acc.2 ++ [c])

/-- Feeding one chunk into the parser with buffered remainder `buf`:
returns the complete lines emitted and the new remainder. -/
def parseFeed (buf chunk : List Char) : List (List Char) × List Char :=
  (buf ++ chunk).foldl splitStep ([], [])

/-- Feeding a sequence of chunks: all lines emitted, and the final
remainder. -/
def feedAll (buf : List Char) : List (List Char) → List (List Char) × List Char
  | [] => ([], buf)
  | c :: cs =>
    let p := parseFeed buf c
    let rest := feedAll p.2 cs
    (p.1 ++ rest.1, rest.2)

/-- The ReadlineParser data handler (src/index.js lines 645-653) applied
to one emitted line: trim it, and when the trimmed text is non-empty show
it (through `addMessage`, color green) and count a message; count the raw
byte length of the line unconditionally. -/
def onLine (s : MonState) (line : List Char) : MonState × List SinkEvent :=
  if s.isShuttingDown then (s, [])
  else
    let clean := jsTrim line
    if clean = [] then
      ({ s with bytesReceived := s.bytesReceived + utf8Len line }, [])
    else
      ({ s with
           messagesReceived := s.messagesReceived + 1
           bytesReceived := s.bytesReceived + utf8Len line },
       (addMessage s (arrowMark ++ clean) Color.green).toList)

/-- The parser data handler applied to each emitted line in order. -/
def onLines (s : MonState) : List (List Char) → MonState × List SinkEvent
  | [] => (s, [])
  | l :: ls =>
    let r := onLine s l
    let rest := onLines r.1 ls
    (rest.1, r.2 ++ rest.2)

/-- Arrival of one raw chunk (src/index.js lines 643-658): the chunk goes
through the ReadlineParser, whose complete lines are handled by the parser
data handler, and the raw chunk goes to the hex handler. -/
def onChunk (s : MonState) (chunk : List Char) : MonState × List SinkEvent :=
  let p := parseFeed s.parserBuf chunk
  let hexEv := (addHexData s chunk).toList
  let r := onLines { s with parserBuf := p.2 } p.1
  (r.1, r.2 ++ hexEv)

/-- Arrival of a sequence of raw chunks. -/
def onChunks (s : MonState) : List (List Char) → MonState × List SinkEvent
  | [] => (s, [])
  | c :: cs =>
    let r := onChunk s c
    let rest := onChunks r.1 cs
    (rest.1, r.2 ++ rest.2)

/-- The send-dialog submit handler (src/index.js lines 434-450): when the
typed value is non-empty, the port is open and the session is not shutting
down, write the value followed by the line-ending bytes, emit the echo
message when echo mode is on, and add the written byte count to
`bytesSent`.  Returns the new state, the bytes written (none when nothing
was sent) and the sink events emitted. -/
def submitSend (s : MonState) (value : List Char) :
    MonState × Option (List Char) × List SinkEvent :=
  if value = [] || !s.portOpen || s.isShuttingDown then (s, none, [])
  else
    let dataToSend := value ++ endingChars s.lineEnding
    let evs := if s.echoMode then (addMessage s (echoMark ++ value) Color.blue).toList else []
    ({ s with bytesSent := s.bytesSent + utf8Len dataToSend }, some dataToSend, evs)

/-! ## Shutdown (src/index.js lines 892-932) -/

/-- The closure variables read by `cleanup`. -/
structure CleanState where
  isShuttingDown : Bool
  reconnectTimerPending : Bool
  reconnectAttempts : Nat
  updateTimerSet : Bool
  portPresent : Bool
  portOpen : Bool
deriving DecidableEq

/-- Observable actions performed by one `cleanup` call. -/
structure CleanupActions where
  reconnectTimerCleared : Bool
  updateTimerCleared : Bool
  portCloseAttempted : Bool
deriving DecidableEq

/-- The `cleanup` function (src/index.js lines 892-932): a second entry is
rejected by the `isShuttingDown` guard; otherwise it cancels the reconnect
timer (via `cancelReconnect`), clears the update timer, and closes the
port when one is present and open. -/
def cleanup (s : CleanState) : CleanState × CleanupActions :=
  if s.isShuttingDown then (s, ⟨false, false, false⟩)
  else
    ({ isShuttingDown := true
       reconnectTimerPending := false
       reconnectAttempts := 0
       updateTimerSet := false
       portPresent := s.portPresent
       portOpen := false },
     ⟨s.reconnectTimerPending, s.updateTimerSet, s.portPresent && s.portOpen⟩)

/-! ## Sample states used by concrete instances -/

/-- Reconnect state as it is while an attempt timer is pending:
auto-reconnect on, reconnecting, some attempts already made. -/
def reconState : RecState :=
  ⟨true, true, 2, true, some 0, 2000, false, false⟩

/-- Fresh reconnect state right after an unsolicited close:
auto-reconnect on, not yet reconnecting, counter 0. -/
def recStart : RecState :=
  ⟨true, false, 0, false, none, 0, false, false⟩

/-- A generic transient I/O failure message (matches no permanent marker). -/
def genericErr : List Char :=
  ("Read error: generic I/O failure").toList

/-- An open failure after the device was unplugged: the classic ENOENT
message, which matches none of the permanent markers in the source. -/
def notFoundMsg : List Char :=
  ("Error: No such file or directory, cannot open /dev/ttyUSB0").toList

/-- Scenario trace: attempt 1 entry. -/
def recA1 : RecState := attemptReconnect recStart 0

/-- Scenario trace: attempt 1 fails transiently. -/
def recF1 : RecOutcome := reconnectTimerFire recA1 (.err genericErr)

/-- Scenario trace: attempt 2 entry. -/
def recA2 : RecState := attemptReconnect recF1.state 0

/-- Scenario trace: attempt 2 fails transiently. -/
def recF2 : RecOutcome := reconnectTimerFire recA2 (.err genericErr)

/-- Scenario trace: attempt 3 entry. -/
def recA3 : RecState := attemptReconnect recF2.state 0

/-- Scenario trace: attempt 3 fails transiently. -/
def recF3 : RecOutcome := reconnectTimerFire recA3 (.err genericErr)

/-- Scenario trace: attempt 4 entry. -/
def recA4 : RecState := attemptReconnect recF3.state 0

/-- Scenario trace: attempt 4 succeeds. -/
def recDone : RecOutcome := reconnectTimerFire recA4 .ok

/-! ## Claim theorems -/

/-- C1: for every attempt count n >= 1, the backoff delay before reconnect
attempt n equals min(1000 * 2^min(n-1,5), 30000) milliseconds; in
particular delay(1) = 1000, delay(6) = 30000 (the uncapped 32000 is
clamped), and delay(10) = 30000; and the delay installed by
`attemptReconnect` is exactly this function of the new attempt ordinal. -/
theorem backoff_delay_formula (n : Nat) (h : 1 ≤ n) :
    reconnectDelay n = min (1000 * 2 ^ (min (n - 1) 5)) 30000
    ∧ reconnectDelay 1 = 1000
    ∧ 1000 * 2 ^ (min (6 - 1) 5) = 32000
    ∧ reconnectDelay 6 = 30000
    ∧ reconnectDelay 10 = 30000
    ∧ ∀ (s : RecState) (now : Nat),
        s.autoReconnect = true → s.isReconnecting = false →
        s.isShuttingDown = false →
        (attemptReconnect s now).currentReconnectDelay
          = reconnectDelay ((attemptReconnect s now).reconnectAttempts) := by
  refine ⟨rfl, by decide, by decide, by decide, by decide, ?_⟩
  intro s now ha hr hs
  simp [attemptReconnect, ha, hr, hs]

/-- Witness for C1 at n = 3. -/
theorem backoff_delay_formula_witness :
    1 ≤ 3 ∧ reconnectDelay 3 = min (1000 * 2 ^ (min (3 - 1) 5)) 30000 :=
  ⟨by decide, (backoff_delay_formula 3 (by decide)).1⟩

/-- C3 (amended): whenever an open attempt fails with an error matching one
of the fixed permanent markers (permission-denied class or resource-busy
class), auto-reconnect is force-disabled, the reconnecting flag is cleared,
the attempt counter is reset to 0 and no further attempt is scheduled. -/
theorem permanent_failure_classification (s : RecState) (msg : List Char)
    (hs : s.isShuttingDown = false) (ha : s.autoReconnect = true)
    (hp : isPermanentError msg = true) :
    (reconnectTimerFire s (.err msg)).state.autoReconnect = false
    ∧ (reconnectTimerFire s (.err msg)).state.isReconnecting = false
    ∧ (reconnectTimerFire s (.err msg)).state.reconnectAttempts = 0
    ∧ (reconnectTimerFire s (.err msg)).retryScheduled = false := by
  simp [reconnectTimerFire, hs, ha, hp]

/-- Witness for C3: a permission-denied failure while reconnecting. -/
theorem permanent_failure_classification_witness :
    isPermanentError (("Permission denied").toList) = true
    ∧ (reconnectTimerFire reconState (.err (("Permission denied").toList))).state.autoReconnect = false
    ∧ (reconnectTimerFire reconState (.err (("Permission denied").toList))).state.isReconnecting = false
    ∧ (reconnectTimerFire reconState (.err (("Permission denied").toList))).state.reconnectAttempts = 0
    ∧ (reconnectTimerFire reconState (.err (("Permission denied").toList))).retryScheduled = false := by
  refine ⟨by decide, ?_⟩
  exact permanent_failure_classification reconState (("Permission denied").toList)
    rfl rfl (by decide)

/-- C3 counterexample: a device-not-found failure (after unplugging the
device) matches no permanent marker, so the session keeps auto-reconnect
enabled and schedules a retry instead of entering the permanently-failed
state. -/
theorem device_not_found_is_transient :
    isPermanentError notFoundMsg = false
    ∧ (reconnectTimerFire reconState (.err notFoundMsg)).state.autoReconnect = true
    ∧ (reconnectTimerFire reconState (.err notFoundMsg)).retryScheduled = true := by
  decide

/-- C4: a transient open failure schedules a retry, and the retried attempt
runs with an ordinal exactly one higher; in the scenario of three transient
failures followed by a success, the failing attempts run with ordinals
1, 2, 3 and backoff delays 1000 ms, 2000 ms, 4000 ms, the session ends
connected, and on success the attempt counter and all reconnect
bookkeeping (start time, current delay, reconnecting flag) are cleared. -/
theorem transient_retry_scenario (s : RecState) (msg : List Char) (now : Nat)
    (hs : s.isShuttingDown = false) (ha : s.autoReconnect = true)
    (hp : isPermanentError msg = false) :
    ((reconnectTimerFire s (.err msg)).retryScheduled = true
      ∧ (attemptReconnect (reconnectTimerFire s (.err msg)).state now).reconnectAttempts
          = s.reconnectAttempts + 1)
    ∧ (recA1.reconnectAttempts = 1 ∧ recA1.currentReconnectDelay = 1000)
    ∧ (recA2.reconnectAttempts = 2 ∧ recA2.currentReconnectDelay = 2000)
    ∧ (recA3.reconnectAttempts = 3 ∧ recA3.currentReconnectDelay = 4000)
    ∧ recDone.state.portOpen = true
    ∧ recDone.state.isReconnecting = false
    ∧ recDone.state.reconnectAttempts = 0
    ∧ recDone.state.reconnectStartTime = none
    ∧ recDone.state.currentReconnectDelay = 0 := by
  refine ⟨⟨?_, ?_⟩, by decide, by decide, by decide, by decide, by decide,
    by decide, by decide, by decide⟩
  · simp [reconnectTimerFire, hs, ha, hp]
  · simp [reconnectTimerFire, attemptReconnect, hs, ha, hp]

/-- Witness for C4: the first failing attempt of the scenario. -/
theorem transient_retry_scenario_witness :
    isPermanentError genericErr = false
    ∧ (reconnectTimerFire recA1 (.err genericErr)).retryScheduled = true := by
  refine ⟨by decide, ?_⟩
  exact (transient_retry_scenario recA1 genericErr 0 rfl rfl (by decide)).1.1

/-- C7 counterexample: pressing the auto-reconnect key while the session is
reconnecting (flag on) does not turn auto-reconnect off; it stays enabled
and a fresh attempt is scheduled immediately. -/
theorem toggle_while_reconnecting_keeps_flag :
    (keyRToggle reconState).state.autoReconnect = true
    ∧ (keyRToggle reconState).attemptScheduled = true := by
  decide

/-- C7 (amended): pressing the toggle while reconnecting with the flag on
keeps auto-reconnect enabled, cancels the pending timer, clears the
reconnecting flag, resets the attempt counter and immediately schedules a
fresh attempt; pressing it while disconnected with the flag off turns
auto-reconnect on and immediately begins a new attempt with the counter
freshly reset. -/
theorem auto_reconnect_toggle_behavior (s : RecState) :
    (s.autoReconnect = true → s.isReconnecting = true →
      (keyRToggle s).state.autoReconnect = true
      ∧ (keyRToggle s).state.timerPending = false
      ∧ (keyRToggle s).state.isReconnecting = false
      ∧ (keyRToggle s).state.reconnectAttempts = 0
      ∧ (keyRToggle s).attemptScheduled = true)
    ∧ (s.autoReconnect = false → s.portOpen = false →
      (keyRToggle s).state.autoReconnect = true
      ∧ (keyRToggle s).state.reconnectAttempts = 0
      ∧ (keyRToggle s).attemptScheduled = true) := by
  constructor
  · intro h1 h2
    simp [keyRToggle, cancelReconnect, h1, h2]
  · intro h1 h2
    simp [keyRToggle, cancelReconnect, h1, h2]

/-- Witness for C7 while reconnecting. -/
theorem auto_reconnect_toggle_behavior_witness :
    (keyRToggle reconState).state.autoReconnect = true
    ∧ (keyRToggle reconState).state.timerPending = false
    ∧ (keyRToggle reconState).state.isReconnecting = false
    ∧ (keyRToggle reconState).state.reconnectAttempts = 0
    ∧ (keyRToggle reconState).attemptScheduled = true :=
  (auto_reconnect_toggle_behavior reconState).1 rfl rfl

/-- C9: shutdown is idempotent: a second `cleanup` call performs no close
attempt, cancels no timers, and leaves the state exactly as the first call
left it. -/
theorem cleanup_idempotent (s : CleanState) :
    cleanup (cleanup s).1 = ((cleanup s).1, ⟨false, false, false⟩) := by
  by_cases h : s.isShuttingDown <;> simp [cleanup, h]

/-! ## Pipeline bookkeeping lemmas -/

/-- Total UTF-8 byte length of a list of lines. -/
def sumUtf8 (ls : List (List Char)) : Nat :=
  (ls.map utf8Len).sum

/-- Number of lines whose trimmed text is non-empty, i.e. the lines
counted as messages by the parser data handler. -/
def countMsgLines (ls : List (List Char)) : Nat :=
  (ls.filter (fun l => !(jsTrim l).isEmpty)).length

theorem utf8Len_append (a b : List Char) :
    utf8Len (a ++ b) = utf8Len a + utf8Len b := by
  simp [utf8Len]

theorem nlCount_append (a b : List Char) :
    nlCount (a ++ b) = nlCount a + nlCount b := by
  induction a with
  | nil => simp [nlCount]
  | cons c t ih => simp [nlCount, ih]; omega

theorem sumUtf8_append (a b : List (List Char)) :
    sumUtf8 (a ++ b) = sumUtf8 a + sumUtf8 b := by
  simp [sumUtf8]

theorem countMsgLines_append (a b : List (List Char)) :
    countMsgLines (a ++ b) = countMsgLines a + countMsgLines b := by
  simp [countMsgLines]

theorem splitStep_fold_conserve (l : List Char) :
    ∀ acc : List (List Char) × List Char,
    sumUtf8 (l.foldl splitStep acc).1 + utf8Len (l.foldl splitStep acc).2
        + nlCount l
      = sumUtf8 acc.1 + utf8Len acc.2 + utf8Len l := by
  induction l with
  | nil => intro acc; simp [nlCount, utf8Len]
  | cons c t ih =>
    intro acc
    by_cases h : c = '\n'
    · have hc : utf8CharLen c = 1 := by subst h; decide
      have := ih (splitStep acc c)
      simp only [List.foldl_cons] at *
      simp [splitStep, h, nlCount, utf8Len, sumUtf8_append, sumUtf8, hc] at *
      omega
    · have := ih (splitStep acc c)
      simp only [List.foldl_cons] at *
      simp [splitStep, h, nlCount, utf8Len, utf8Len_append, sumUtf8] at *
      omega

theorem splitStep_fold_rem_nl (l : List Char) :
    ∀ acc : List (List Char) × List Char, nlCount acc.2 = 0 →
    nlCount (l.foldl splitStep acc).2 = 0 := by
  induction l with
  | nil => intro acc h; simpa using h
  | cons c t ih =>
    intro acc h
    simp only [List.foldl_cons]
    apply ih
    by_cases hc : c = '\n'
    · simp [splitStep, hc, nlCount]
    · simp [splitStep, hc, nlCount_append, nlCount, h]

theorem parseFeed_conserve (buf chunk : List Char) :
    sumUtf8 (parseFeed buf chunk).1 + utf8Len (parseFeed buf chunk).2
        + nlCount (buf ++ chunk)
      = utf8Len (buf ++ chunk) := by
  have := splitStep_fold_conserve (buf ++ chunk) ([], [])
  simpa [parseFeed, sumUtf8, utf8Len] using this

theorem parseFeed_rem_nl (buf chunk : List Char) :
    nlCount (parseFeed buf chunk).2 = 0 := by
  exact splitStep_fold_rem_nl (buf ++ chunk) ([], []) (by simp [nlCount])

theorem feedAll_conserve (chunks : List (List Char)) :
    ∀ buf : List Char,
    sumUtf8 (feedAll buf chunks).1 + utf8Len (feedAll buf chunks).2
        + nlCount (buf ++ chunks.flatten)
      = utf8Len buf + utf8Len chunks.flatten + nlCount (feedAll buf chunks).2 := by
  induction chunks with
  | nil => intro buf; simp [feedAll, sumUtf8, nlCount_append, utf8Len]
  | cons c cs ih =>
    intro buf
    have h1 := parseFeed_conserve buf c
    have h2 := ih (parseFeed buf c).2
    have h3 := parseFeed_rem_nl buf c
    simp only [feedAll, List.flatten_cons]
    simp only [sumUtf8_append, utf8Len_append, nlCount_append] at *
    omega

theorem feedAll_rem_nl (chunks : List (List Char)) :
    ∀ buf : List Char, nlCount buf = 0 →
    nlCount (feedAll buf chunks).2 = 0 := by
  induction chunks with
  | nil => intro buf h; simpa [feedAll] using h
  | cons c cs ih =>
    intro buf h
    simp only [feedAll]
    exact ih (parseFeed buf c).2 (parseFeed_rem_nl buf c)

theorem onLine_state (s : MonState) (l : List Char)
    (hs : s.isShuttingDown = false) :
    (onLine s l).1 = { s with
      bytesReceived := s.bytesReceived + utf8Len l
      messagesReceived := s.messagesReceived
        + (if (jsTrim l).isEmpty then 0 else 1) } := by
  by_cases h : jsTrim l = []
  · simp [onLine, hs, h]
  · simp [onLine, hs, h, List.isEmpty_iff]

theorem onLines_state (ls : List (List Char)) :
    ∀ s : MonState, s.isShuttingDown = false →
    (onLines s ls).1 = { s with
      bytesReceived := s.bytesReceived + sumUtf8 ls
      messagesReceived := s.messagesReceived + countMsgLines ls } := by
  induction ls with
  | nil => intro s hs; simp [onLines, sumUtf8, countMsgLines]
  | cons l ls ih =>
    intro s hs
    have h1 := onLine_state s l hs
    have hs2 : (onLine s l).1.isShuttingDown = false := by
      rw [h1]; exact hs
    simp only [onLines]
    rw [ih (onLine s l).1 hs2, h1]
    by_cases h : jsTrim l = [] <;>
      simp [sumUtf8, countMsgLines, h, List.isEmpty_iff, List.filter_cons] <;>
      omega

theorem onChunk_state (s : MonState) (chunk : List Char)
    (hs : s.isShuttingDown = false) :
    (onChunk s chunk).1 = { s with
      parserBuf := (parseFeed s.parserBuf chunk).2
      bytesReceived := s.bytesReceived + sumUtf8 (parseFeed s.parserBuf chunk).1
      messagesReceived := s.messagesReceived
        + countMsgLines (parseFeed s.parserBuf chunk).1 } := by
  have hs2 : ({ s with parserBuf := (parseFeed s.parserBuf chunk).2 } : MonState).isShuttingDown = false := hs
  simp only [onChunk]
  rw [onLines_state _ _ hs2]

theorem onChunks_state (chunks : List (List Char)) :
    ∀ s : MonState, s.isShuttingDown = false →
    (onChunks s chunks).1 = { s with
      parserBuf := (feedAll s.parserBuf chunks).2
      bytesReceived := s.bytesReceived + sumUtf8 (feedAll s.parserBuf chunks).1
      messagesReceived := s.messagesReceived
        + countMsgLines (feedAll s.parserBuf chunks).1 } := by
  induction chunks with
  | nil => intro s hs; simp [onChunks, feedAll, sumUtf8, countMsgLines]
  | cons c cs ih =>
    intro s hs
    have h1 := onChunk_state s c hs
    have hs2 : (onChunk s c).1.isShuttingDown = false := by rw [h1]; exact hs
    simp only [onChunks]
    rw [ih (onChunk s c).1 hs2, h1]
    simp [feedAll, sumUtf8_append, countMsgLines_append]
    omega

theorem onLine_pause_preserved (s : MonState) (l : List Char) :
    (onLine s l).1.pauseLogging = s.pauseLogging := by
  by_cases hs : s.isShuttingDown <;> by_cases h : jsTrim l = [] <;>
    simp [onLine, hs, h]

theorem onLine_sink_paused (s : MonState) (l : List Char)
    (hp : s.pauseLogging = true) :
    (onLine s l).2 = [] := by
  by_cases hs : s.isShuttingDown <;> by_cases h : jsTrim l = [] <;>
    simp [onLine, addMessage, isSystemColor, hs, h, hp]

theorem onLines_sink_paused (ls : List (List Char)) :
    ∀ s : MonState, s.pauseLogging = true →
    (onLines s ls).2 = [] := by
  induction ls with
  | nil => intro s hp; simp [onLines]
  | cons l ls ih =>
    intro s hp
    simp only [onLines]
    rw [onLine_sink_paused s l hp,
        ih (onLine s l).1 (by rw [onLine_pause_preserved]; exact hp)]
    rfl

/-- A plain connected monitor state: not paused, no filter, hex on,
echo off, line ending LF, port open, empty parser buffer. -/
def monBase : MonState :=
  ⟨false, [], false, true, false, .LF, true, false, 0, 0, 0, []⟩

/-- monBase but paused. -/
def monPaused : MonState :=
  ⟨true, [], false, true, false, .LF, true, false, 0, 0, 0, []⟩

/-- monBase with the filter "temp" enabled. -/
def tempFilterState : MonState :=
  ⟨false, ("temp").toList, true, true, false, .LF, true, false, 0, 0, 0, []⟩

/-- monBase with the filter " s" (space then s) enabled. -/
def spaceFilterState : MonState :=
  ⟨false, (" s").toList, true, true, false, .LF, true, false, 0, 0, 0, []⟩

/-- monBase with the CRLF line ending selected. -/
def pingState : MonState :=
  ⟨false, [], false, true, false, .CRLF, true, false, 0, 0, 0, []⟩

/-- C10: a complete inbound line whose trimmed form is empty produces no
message sink event and does not increment messagesReceived, while
bytesReceived still increases by the byte length of the line. -/
theorem blank_line_not_counted (s : MonState) (line : List Char)
    (hs : s.isShuttingDown = false) (ht : jsTrim line = []) :
    (onLine s line).2 = []
    ∧ (onLine s line).1.messagesReceived = s.messagesReceived
    ∧ (onLine s line).1.bytesReceived = s.bytesReceived + utf8Len line := by
  simp [onLine, hs, ht]

/-- Witness for C10 on the whitespace-only line CR-space. -/
theorem blank_line_not_counted_witness :
    jsTrim ['\r', ' '] = []
    ∧ ((onLine monBase ['\r', ' ']).2 = []
       ∧ (onLine monBase ['\r', ' ']).1.messagesReceived = monBase.messagesReceived
       ∧ (onLine monBase ['\r', ' ']).1.bytesReceived
           = monBase.bytesReceived + utf8Len ['\r', ' ']) :=
  ⟨by decide, blank_line_not_counted monBase ['\r', ' '] rfl (by decide)⟩

/-- C5: while paused, no ordinary message event and no hex event is
emitted for inbound data, but system-level (e.g. red transport-error)
messages are still emitted, and the byte and message counters advance
exactly as they would when not paused. -/
theorem pause_suppresses_sink_not_counters (s : MonState)
    (msg err data chunk : List Char) (c : Color) (chunks : List (List Char))
    (hp : s.pauseLogging = true) (hs : s.isShuttingDown = false)
    (hc : isSystemColor c = false) :
    addMessage s msg c = none
    ∧ addHexData s data = none
    ∧ (addMessage s err Color.red).isSome = true
    ∧ (onChunk s chunk).2 = []
    ∧ (onChunks { s with pauseLogging := false } chunks).1.bytesReceived
        = (onChunks s chunks).1.bytesReceived
    ∧ (onChunks { s with pauseLogging := false } chunks).1.messagesReceived
        = (onChunks s chunks).1.messagesReceived := by
  refine ⟨?_, ?_, ?_, ?_, ?_, ?_⟩
  · simp [addMessage, hp, hs, hc]
  · simp [addHexData, hp, hs]
  · simp [addMessage, isSystemColor, hs]
  · simp only [onChunk]
    rw [onLines_sink_paused _ _ (by exact hp)]
    simp [addHexData, hp, hs]
  · rw [onChunks_state chunks s hs,
        onChunks_state chunks { s with pauseLogging := false } (by exact hs)]
  · rw [onChunks_state chunks s hs,
        onChunks_state chunks { s with pauseLogging := false } (by exact hs)]

/-- Witness for C5 at the paused base state with a green message, a data
chunk and one inbound chunk sequence. -/
theorem pause_suppresses_sink_not_counters_witness :
    addMessage monPaused (("hello").toList) Color.green = none
    ∧ addHexData monPaused (("hi").toList) = none
    ∧ (addMessage monPaused (("boom").toList) Color.red).isSome = true
    ∧ (onChunk monPaused (("a\nb").toList)).2 = []
    ∧ (onChunks { monPaused with pauseLogging := false } [("a\nb").toList]).1.bytesReceived
        = (onChunks monPaused [("a\nb").toList]).1.bytesReceived
    ∧ (onChunks { monPaused with pauseLogging := false } [("a\nb").toList]).1.messagesReceived
        = (onChunks monPaused [("a\nb").toList]).1.messagesReceived :=
  pause_suppresses_sink_not_counters monPaused (("hello").toList) (("boom").toList)
    (("hi").toList) (("a\nb").toList) Color.green [("a\nb").toList] rfl rfl rfl

/-- C6 (amended): with the filter enabled and non-empty, an inbound line
with non-empty trimmed text is delivered to the sink iff the lowercase
form of the rendered message (the arrow mark followed by the trimmed line)
contains the lowercase filter text, and the message and byte counters
increment identically whether the line is delivered or suppressed. -/
theorem filter_delivery (s : MonState) (line : List Char)
    (hs : s.isShuttingDown = false) (hp : s.pauseLogging = false)
    (he : s.filterEnabled = true) (ht : s.filterText ≠ [])
    (hn : jsTrim line ≠ []) :
    (onLine s line).2
        = (if containsSub (jsToLower (arrowMark ++ jsTrim line)) (jsToLower s.filterText)
           then [SinkEvent.message (arrowMark ++ jsTrim line) Color.green] else [])
    ∧ (onLine s line).1.messagesReceived = s.messagesReceived + 1
    ∧ (onLine s line).1.bytesReceived = s.bytesReceived + utf8Len line := by
  have hte : s.filterText.isEmpty = false := by
    cases hft : s.filterText with
    | nil => exact absurd hft ht
    | cons a t => rfl
  refine ⟨?_, ?_, ?_⟩
  · by_cases hc : containsSub (jsToLower (arrowMark ++ jsTrim line)) (jsToLower s.filterText) <;>
      simp [onLine, addMessage, isSystemColor, hs, hp, he, hn, hte, hc]
  · simp [onLine, hs, hn]
  · simp [onLine, hs, hn]

/-- Witness for C6: with filter "temp", the line "Temperature: 23.5C" is
delivered and the line "Status OK" is suppressed, and the counters
increment for both. -/
theorem filter_delivery_witness :
    (onLine tempFilterState (("Temperature: 23.5C").toList)).2
        = [SinkEvent.message (arrowMark ++ jsTrim (("Temperature: 23.5C").toList)) Color.green]
    ∧ (onLine tempFilterState (("Status OK").toList)).2 = []
    ∧ (onLine tempFilterState (("Status OK").toList)).1.messagesReceived
        = tempFilterState.messagesReceived + 1 := by
  refine ⟨?_, ?_, ?_⟩
  · rw [(filter_delivery tempFilterState (("Temperature: 23.5C").toList)
      rfl rfl rfl (by decide) (by decide)).1]
    decide
  · rw [(filter_delivery tempFilterState (("Status OK").toList)
      rfl rfl rfl (by decide) (by decide)).1]
    decide
  · exact (filter_delivery tempFilterState (("Status OK").toList)
      rfl rfl rfl (by decide) (by decide)).2.1

/-- C6 counterexample: with filter " s" (space then s) enabled, the line
"Status OK" is delivered to the sink although its lowercase form does not
contain the lowercase filter text — the code matches the filter against
the rendered message, which carries the arrow prefix. -/
theorem filter_checks_rendered_string :
    (onLine spaceFilterState (("Status OK").toList)).2
        = [SinkEvent.message (arrowMark ++ (("Status OK").toList)) Color.green]
    ∧ containsSub (jsToLower (("Status OK").toList)) (jsToLower ((" s").toList)) = false := by
  decide

/-- C8: a send while connected writes the payload followed by the selected
line-ending bytes (LF, CR or CRLF) and adds the written byte count to
bytesSent; the line ending is never applied to inbound framing, whose
result is independent of the selected mode; in particular sending "ping"
with CRLF writes "ping\r\n" and adds 6 to bytesSent. -/
theorem send_appends_line_ending (s : MonState) (value : List Char)
    (hv : value ≠ []) (ho : s.portOpen = true) (hs : s.isShuttingDown = false) :
    (submitSend s value).2.1 = some (value ++ endingChars s.lineEnding)
    ∧ (submitSend s value).1.bytesSent
        = s.bytesSent + utf8Len (value ++ endingChars s.lineEnding)
    ∧ endingChars .LF = ['\n'] ∧ endingChars .CR = ['\r']
    ∧ endingChars .CRLF = ['\r', '\n']
    ∧ (∀ (m : LineEnding) (chunks : List (List Char)),
        (onChunks { s with lineEnding := m } chunks).1.parserBuf
          = (onChunks s chunks).1.parserBuf
        ∧ (onChunks { s with lineEnding := m } chunks).1.bytesReceived
          = (onChunks s chunks).1.bytesReceived
        ∧ (onChunks { s with lineEnding := m } chunks).1.messagesReceived
          = (onChunks s chunks).1.messagesReceived)
    ∧ (submitSend pingState (("ping").toList)).2.1 = some (("ping\r\n").toList)
    ∧ (submitSend pingState (("ping").toList)).1.bytesSent
        = pingState.bytesSent + 6 := by
  refine ⟨?_, ?_, rfl, rfl, rfl, ?_, by decide, by decide⟩
  · simp [submitSend, hv, ho, hs]
  · simp [submitSend, hv, ho, hs]
  · intro m chunks
    rw [onChunks_state chunks s hs, onChunks_state chunks { s with lineEnding := m } (by exact hs)]
    exact ⟨rfl, rfl, rfl⟩

/-- Witness for C8 at the CRLF sample state. -/
theorem send_appends_line_ending_witness :
    (submitSend pingState (("ping").toList)).2.1
        = some ((("ping").toList) ++ endingChars pingState.lineEnding)
    ∧ (submitSend pingState (("ping").toList)).1.bytesSent
        = pingState.bytesSent + utf8Len ((("ping").toList) ++ endingChars pingState.lineEnding) :=
  ⟨(send_appends_line_ending pingState (("ping").toList) (by decide) rfl rfl).1,
   (send_appends_line_ending pingState (("ping").toList) (by decide) rfl rfl).2.1⟩

/-- C2 counterexample: feeding the single 2-byte chunk "a\n" yields
bytesReceived = 1, not the chunk total 2 — the handler counts the bytes of
the emitted line (delimiter stripped), not the raw chunk. -/
theorem bytes_received_is_not_chunk_total :
    (onChunks monBase [['a', '\n']]).1.bytesReceived = 1
    ∧ utf8Len ['a', '\n'] = 2 := by
  decide

/-- C2 (amended): after any sequence of chunks, bytesReceived has grown by
the total byte length of the complete lines emitted by the framer; equally,
it equals the total bytes fed minus one byte per consumed newline delimiter
and minus the partial trailing bytes still buffered; pause and filter state
never affect it. -/
theorem bytes_received_counts_line_bytes (s : MonState) (chunks : List (List Char))
    (hs : s.isShuttingDown = false) (hb : nlCount s.parserBuf = 0) :
    (onChunks s chunks).1.bytesReceived
        = s.bytesReceived + sumUtf8 (feedAll s.parserBuf chunks).1
    ∧ (onChunks s chunks).1.bytesReceived
        + nlCount (s.parserBuf ++ chunks.flatten)
        + utf8Len (onChunks s chunks).1.parserBuf
      = s.bytesReceived + utf8Len s.parserBuf + utf8Len chunks.flatten
    ∧ ∀ (p e : Bool) (f : List Char),
        (onChunks { s with pauseLogging := p, filterEnabled := e, filterText := f } chunks).1.bytesReceived
          = (onChunks s chunks).1.bytesReceived := by
  have h1 := onChunks_state chunks s hs
  refine ⟨by rw [h1], ?_, ?_⟩
  · have h2 := feedAll_conserve chunks s.parserBuf
    have h3 := feedAll_rem_nl chunks s.parserBuf hb
    rw [h1]
    simp only []
    omega
  · intro p e f
    rw [h1, onChunks_state chunks { s with pauseLogging := p, filterEnabled := e, filterText := f } (by exact hs)]

/-- Witness for C2 on two chunks with a split line and a trailing partial
line. -/
theorem bytes_received_counts_line_bytes_witness :
    nlCount monBase.parserBuf = 0
    ∧ (onChunks monBase [("ab\nc").toList, ("d\nef").toList]).1.bytesReceived
        = monBase.bytesReceived
          + sumUtf8 (feedAll monBase.parserBuf [("ab\nc").toList, ("d\nef").toList]).1 :=
  ⟨by decide,
   (bytes_received_counts_line_bytes monBase [("ab\nc").toList, ("d\nef").toList]
     rfl (by decide)).1⟩
